import Mathlib

/-
Verification of the grid layout manager in src/grid.py.

Modelling conventions:
- Python ints are embedded as Int, Python floats as Rat (exact arithmetic).
- Python exceptions are embedded as an error type; fallible operations
  return Except, and operations that may leave a mutated state behind an
  exception return a pair of an optional error and the post state.
- The host capability (DearPyGui) is abstracted: the target item rect is
  passed to the cell solver as explicit width and height arguments, and
  redraw side effects (configure_item) are outside the embedded state.
-/

namespace GridSpec

/-- Python exceptions raised by the grid code. -/
inductive PyErr
  | indexOutOfRange
  | typeError
  | valueError
  | zeroDivision
deriving DecidableEq, Repr

/-- Embeds class GridSeries: weight, size and policy of one row or column.
Field defaults follow the source: weight 1.0, size 0, policy SIZED. -/
structure GridSeries where
  weight : ℚ := 1
  size   : ℤ := 0
  policy : ℤ := 0
deriving DecidableEq, Repr

def GridSeries.SIZED : ℤ := 0

def GridSeries.FIXED : ℤ := 1

/-- A GridSeries built with all defaults, GridSeries() in the source. -/
def defaultSeries : GridSeries := { weight := 1, size := 0, policy := 0 }

/-- Embeds class GridItem: a placement record stored in the registry.
coords2 is a Python tuple that defaults to the empty tuple; the empty
tuple is embedded as none and a pair as some. -/
structure GridItem where
  item    : ℤ
  coords1 : ℤ × ℤ
  coords2 : Option (ℤ × ℤ) := none
  width   : ℤ := 0
  height  : ℤ := 0
deriving DecidableEq, Repr

/-- Embeds class Rect (a NamedTuple of four floats). -/
structure Rect where
  x      : ℚ
  y      : ℚ
  width  : ℚ
  height : ℚ
deriving DecidableEq, Repr

/-- Python sequence index validity: arr[i] succeeds iff -len <= i < len. -/
def pyValid (n : ℕ) (i : ℤ) : Bool :=
  decide (-(n : ℤ) ≤ i) && decide (i < (n : ℤ))

/-- Python sequence read arr[i] (None when the index is out of range).
For a valid index the normalized position is i mod len. -/
def pyGet {α : Type} (l : List α) (i : ℤ) : Option α :=
  if pyValid l.length i then l.get? (i % (l.length : ℤ)).toNat else none

/-- In-place mutation of the element at a (normalized, in range) position. -/
def modifyIdx {α : Type} (l : List α) (i : ℕ) (f : α → α) : List α :=
  match l.get? i with
  | some a => l.set i (f a)
  | none   => l

/-- Embeds _resize_axis. The source branches on amount >= len(arr): the
extend branch appends amount default series; the del branch executes
del arr[-1 : amount-1 : -1], which keeps the prefix of length amount when
1 <= amount < len, everything when amount = 0, the prefix of length
len + amount when -len < amount < 0, and nothing when amount <= -len. -/
def _resize_axis (arr : List GridSeries) (amount : ℤ) : List GridSeries :=
  if (arr.length : ℤ) ≤ amount then
    arr ++ List.replicate amount.toNat defaultSeries
  else if amount = 0 then
    arr
  else if 1 ≤ amount then
    arr.take amount.toNat
  else
    arr.take ((arr.length : ℤ) + amount).toNat

/-- Embeds sum(_iter_weights(arr)). -/
def sumWeights (l : List GridSeries) : ℚ :=
  (l.map GridSeries.weight).sum

/-- The provisional extent of one series in the loop of Grid._get_cells:
unit * weight, replaced by the size when size > unit * weight, or the
policy is FIXED, or the cumulative extent so far exceeds the content
extent. -/
def stepExtent (u cont cum : ℚ) (cfg : GridSeries) : ℚ :=
  if (cfg.size : ℚ) > u * cfg.weight ∨ cfg.policy = GridSeries.FIXED ∨ cum > cont
  then (cfg.size : ℚ) else u * cfg.weight

/-- Embeds the per-series provisional-extent loop of Grid._get_cells: each
step chooses stepExtent and advances the cumulative extent by it. -/
def extentsFrom (u cont : ℚ) : ℚ → List GridSeries → List ℚ
  | _, [] => []
  | cum, cfg :: rest =>
    stepExtent u cont cum cfg ::
      extentsFrom u cont (cum + stepExtent u cont cum cfg) rest

/-- Cumulative offsets of a list of extents, starting from acc. -/
def offsets (acc : ℚ) : List ℚ → List ℚ
  | [] => []
  | x :: xs => acc :: offsets (acc + x) xs

/-- Embeds the grid state (class Grid). The registry is a list because a
Python dict preserves insertion order. -/
structure Grid where
  target  : ℤ
  rows    : List GridSeries
  cols    : List GridSeries
  spacing : ℤ × ℤ
  padding : ℤ × ℤ
  items   : List GridItem
deriving DecidableEq, Repr

/-- Embeds Grid.__init__: ValueError when rows < 1 or cols < 1, otherwise
both axes are filled with default series. -/
def Grid.construct (target cols rows : ℤ) (spacing padding : ℤ × ℤ) :
    Except PyErr Grid :=
  if rows < 1 then .error .valueError
  else if cols < 1 then .error .valueError
  else .ok { target := target
             rows := List.replicate rows.toNat defaultSeries
             cols := List.replicate cols.toNat defaultSeries
             spacing := spacing
             padding := padding
             items := [] }

/-- Embeds Grid.clear. -/
def Grid.clear (g : Grid) : Grid := { g with items := [] }

/-- Embeds Grid.clear_item (dict.pop with a default). -/
def Grid.clear_item (g : Grid) (item : ℤ) : Grid :=
  { g with items := g.items.filter (fun gi => !(gi.item == item)) }

/-- Embeds Grid.configure_grid. Counts below 1 are ignored; the resize
amount passed to _resize_axis is the requested count minus the current
length. Padding and spacing update when a (truthy) tuple is given. -/
def Grid.configure_grid (g : Grid) (rows cols : ℤ)
    (padding spacing : Option (ℤ × ℤ)) : Grid :=
  let g1 := if rows > 0 then
              { g with rows := _resize_axis g.rows (rows - g.rows.length) }
            else g
  let g2 := if cols > 0 then
              { g1 with cols := _resize_axis g1.cols (cols - g1.cols.length) }
            else g1
  let g3 := match padding with
            | some p => { g2 with padding := p }
            | none => g2
  match spacing with
  | some s => { g3 with spacing := s }
  | none => g3

/-- Embeds Grid._configure_series. Mutations happen in source order, so a
state mutated before a later argument error is kept: the result carries
both the optional error and the post state of the axis. -/
def _configure_series (targets : List GridSeries) (index : ℤ)
    (weight : Option ℚ) (policy : Option ℤ) (size : Option ℤ) :
    Option PyErr × List GridSeries :=
  if pyValid targets.length index then
    let i := (index % (targets.length : ℤ)).toNat
    let afterW : Option PyErr × List GridSeries :=
      match weight with
      | none => (none, targets)
      | some w =>
        if ¬ ((0.2 : ℚ) ≤ w) then (some .valueError, targets)
        else (none, modifyIdx targets i (fun t => { t with weight := w }))
    match afterW with
    | (some e, ts) => (some e, ts)
    | (none, ts) =>
      let afterP : Option PyErr × List GridSeries :=
        match policy with
        | none => (none, ts)
        | some p =>
          if p ≠ GridSeries.FIXED ∧ p ≠ GridSeries.SIZED then
            (some .valueError, ts)
          else (none, modifyIdx ts i (fun t => { t with policy := p }))
      match afterP with
      | (some e, ts2) => (some e, ts2)
      | (none, ts2) =>
        let ts3 := match size with
          | none => ts2
          | some s => if 0 ≤ s then
                        modifyIdx ts2 i (fun t => { t with size := s })
                      else ts2
        (none, ts3)
  else (some .indexOutOfRange, targets)

/-- Embeds Grid.configure_row: delegates to _configure_series on the rows
axis with size := height. -/
def Grid.configure_row (g : Grid) (index : ℤ) (weight : Option ℚ)
    (policy : Option ℤ) (height : Option ℤ) : Option PyErr × Grid :=
  let r := _configure_series g.rows index weight policy height
  (r.1, { g with rows := r.2 })

/-- Embeds Grid.configure_col. The source passes self._rows (not
self._cols) to _configure_series at line 290, so the rows axis is the one
validated and mutated. -/
def Grid.configure_col (g : Grid) (index : ℤ) (weight : Option ℚ)
    (policy : Option ℤ) (width : Option ℤ) : Option PyErr × Grid :=
  let r := _configure_series g.rows index weight policy width
  (r.1, { g with rows := r.2 })

/-- Embeds Grid.get_col_configuration (reads self._cols). -/
def Grid.get_col_configuration (g : Grid) (index : ℤ) :
    Except PyErr GridSeries :=
  match pyGet g.cols index with
  | some s => .ok s
  | none => .error .indexOutOfRange

/-- Embeds Grid.get_row_configuration (reads self._rows). -/
def Grid.get_row_configuration (g : Grid) (index : ℤ) :
    Except PyErr GridSeries :=
  match pyGet g.rows index with
  | some s => .ok s
  | none => .error .indexOutOfRange

/-- Embeds the loop of Grid.get_item. The source line
row2, col2 = coords2 or row1, col1 groups as (coords2 or row1), col1:
when coords2 is a nonempty tuple, row2 is that tuple and the chained
comparison row1 <= row <= row2 raises TypeError as soon as its first
link row1 <= row holds; when coords2 is empty, row2 = row1 and
col2 = col1. -/
def getItemLoop (row col : ℤ) : List GridItem → Except PyErr (Option ℤ)
  | [] => .ok none
  | gi :: rest =>
    if gi.coords1.1 ≤ row then
      match gi.coords2 with
      | some _ => .error .typeError
      | none =>
        if row ≤ gi.coords1.1 ∧ gi.coords1.2 ≤ col ∧ col ≤ gi.coords1.2 then
          .ok (some gi.item)
        else getItemLoop row col rest
    else getItemLoop row col rest

/-- Embeds Grid.get_item: runs the registry loop, then checks the indices
against both axes when no item was found. -/
def Grid.get_item (g : Grid) (row col : ℤ) : Except PyErr (Option ℤ) :=
  match getItemLoop row col g.items with
  | .ok none =>
    if pyValid g.rows.length row && pyValid g.cols.length col then .ok none
    else .error .indexOutOfRange
  | r => r

/-- Registry write self._items[item] = gi: a Python dict assignment
replaces in place when the key exists and appends otherwise. -/
def dictSet (l : List GridItem) (gi : GridItem) : List GridItem :=
  if l.any (fun x => x.item == gi.item) then
    l.map (fun x => if x.item == gi.item then gi else x)
  else l ++ [gi]

/-- Embeds Grid.pack. Validation follows the source exactly: rows[r1],
rows[c1], cols[r2 or 0], cols[c2 or 0]. Normalization also follows the
source, including the line c1 = c1 % c_count if c1 != -1 else r1, whose
else branch yields the (already normalized) r1 rather than c1. -/
def Grid.pack (g : Grid) (item r1 c1 : ℤ) (r2 c2 : Option ℤ)
    (max_width max_height : ℤ) : Except PyErr Grid :=
  if pyValid g.rows.length r1 && pyValid g.rows.length c1
     && pyValid g.cols.length (r2.getD 0) && pyValid g.cols.length (c2.getD 0)
  then
    let rCount : ℤ := g.rows.length
    let cCount : ℤ := g.cols.length
    let r1n := if r1 ≠ -1 then r1 % rCount else r1
    let c1n := if c1 ≠ -1 then c1 % cCount else r1n
    let r2n := match r2 with
               | some v => if v ≠ -1 then v % rCount else v
               | none => r1n
    let c2n := match c2 with
               | some v => if v ≠ -1 then v % cCount else v
               | none => c1n
    let rr := if r1n > r2n ∧ r2n ≠ -1 then (r2n, r1n) else (r1n, r2n)
    let cc := if c1n > c2n ∧ c2n ≠ -1 then (c2n, c1n) else (c1n, c2n)
    let mw := if max_width < 0 then 0 else max_width
    let mh := if max_height < 0 then 0 else max_height
    .ok { g with items := dictSet g.items
                  { item := item, coords1 := (rr.1, cc.1),
                    coords2 := some (rr.2, cc.2), width := mw, height := mh } }
  else .error .indexOutOfRange

/-- Content-region width of Grid._get_cells:
target width minus twice the horizontal padding. -/
def contentW (g : Grid) (tw : ℤ) : ℚ :=
  (tw : ℚ) - (g.padding.1 : ℚ) - (g.padding.1 : ℚ)

/-- Content-region height of Grid._get_cells. -/
def contentH (g : Grid) (th : ℤ) : ℚ :=
  (th : ℚ) - (g.padding.2 : ℚ) - (g.padding.2 : ℚ)

/-- Provisional column widths of Grid._get_cells: the loop over the
columns with weight unit contentW / sum of column weights. -/
def colExtents (g : Grid) (tw : ℤ) : List ℚ :=
  extentsFrom (contentW g tw / sumWeights g.cols) (contentW g tw) 0 g.cols

/-- Provisional row heights of Grid._get_cells. -/
def rowExtents (g : Grid) (th : ℤ) : List ℚ :=
  extentsFrom (contentH g th / sumWeights g.rows) (contentH g th) 0 g.rows

/-- The cell rects produced by Grid._get_cells, row-major: the top-left of
a cell is the content origin plus the cumulative extent of the preceding
series plus half the spacing, and the cell extent is the provisional
extent minus the full spacing. -/
def gridCells (g : Grid) (tw th : ℤ) : List (List Rect) :=
  ((rowExtents g th).zip (offsets 0 (rowExtents g th))).map (fun rp =>
    ((colExtents g tw).zip (offsets 0 (colExtents g tw))).map (fun cp =>
      { x := (g.padding.1 : ℚ) + cp.2 + (g.spacing.1 : ℚ) / 2
        y := (g.padding.2 : ℚ) + rp.2 + (g.spacing.2 : ℚ) / 2
        width := cp.1 - (g.spacing.1 : ℚ)
        height := rp.1 - (g.spacing.2 : ℚ) }))

/-- Embeds Grid._get_cells. Python raises ZeroDivisionError at
cont_width / sum(...) when a weight sum is zero; otherwise the full cell
table is produced. -/
def Grid.getCells (g : Grid) (tw th : ℤ) : Except PyErr (List (List Rect)) :=
  if sumWeights g.cols = 0 ∨ sumWeights g.rows = 0 then .error .zeroDivision
  else .ok (gridCells g tw th)

/-- Widths of row r of a cell table, each restored by the horizontal
spacing that the cell donated to its boundaries. -/
def cellWidths (cs : List (List Rect)) (r : ℕ) (sx : ℚ) : List ℚ :=
  (cs.getD r []).map (fun rect => rect.width + sx)

/-- Heights of column c of a cell table, each restored by the vertical
spacing. -/
def cellHeights (cs : List (List Rect)) (c : ℕ) (sy : ℚ) : List ℚ :=
  cs.map (fun rowL => (rowL.getD c { x := 0, y := 0, width := 0, height := 0 }).height + sy)

/-- Written from the words of the specification, for comparison with the
source: unallocated extent, the maximum of 0 and the content extent minus
the sum of the sizes of the series with positive size. -/
def specUnallocated (cont : ℚ) (l : List GridSeries) : ℚ :=
  max 0 (cont - ((l.filter (fun s => decide (0 < s.size))).map
                  (fun s => (s.size : ℚ))).sum)

/-- Written from the words of the specification, for comparison with the
source: weight unit, the unallocated extent divided by the weight sum. -/
def specWeightUnit (cont : ℚ) (l : List GridSeries) : ℚ :=
  specUnallocated cont l / sumWeights l

/-- Written from the words of the specification, for comparison with the
source: provisional extent of series i, its size whenever size is
positive or the policy is FIXED, and weight unit times weight otherwise. -/
def specProvisional (cont : ℚ) (l : List GridSeries) (i : ℕ) : ℚ :=
  let s := l.getD i defaultSeries
  if 0 < s.size ∨ s.policy = GridSeries.FIXED then (s.size : ℚ)
  else specWeightUnit cont l * s.weight

/-- Modelled from the spec: the nine compass anchors of section 4.3.
Anchor support is absent from src/grid.py (GridItem stores no anchor and
Grid.redraw always writes the cell origin); the spec derives it from the
other iterations of the repository, which are not under src. -/
inductive Anchor
  | n | ne | e | se | s | sw | w | nw | c
deriving DecidableEq, Repr

/-- Modelled from the spec: the per-axis alignment alternatives start,
center and end of section 4.3 step 4. -/
inductive AxisAlign
  | start | center | stop
deriving DecidableEq, Repr

/-- Modelled from the spec: per-axis anchor position, with start = 0,
center = (cellExtent - itemExtent) / 2 and end = cellExtent - itemExtent. -/
def axisPos (a : AxisAlign) (cellExtent itemExtent : ℚ) : ℚ :=
  match a with
  | .start => 0
  | .center => (cellExtent - itemExtent) / 2
  | .stop => cellExtent - itemExtent

/-- Modelled from the spec: the fixed map from each compass anchor to its
(horizontal, vertical) alignment pair, with c = (center, center) and
nw = (start, start). -/
def anchorAlign (a : Anchor) : AxisAlign × AxisAlign :=
  match a with
  | .nw => (.start, .start)
  | .n  => (.center, .start)
  | .ne => (.stop, .start)
  | .w  => (.start, .center)
  | .c  => (.center, .center)
  | .e  => (.stop, .center)
  | .sw => (.start, .stop)
  | .s  => (.center, .stop)
  | .se => (.stop, .stop)

/-- Modelled from the spec: max-size clamping of section 4.3 step 3.
A positive declared maximum smaller than the cell extent constrains the
item extent; zero means fill. -/
def clampExtent (maxExtent cellExtent : ℚ) : ℚ :=
  if 0 < maxExtent ∧ maxExtent < cellExtent then maxExtent else cellExtent

/-- Modelled from the spec: the position of an item inside a cell, given
the cell extents and the declared maximum extents, relative to the cell
origin. -/
def anchorResolve (a : Anchor) (cellW cellH maxW maxH : ℚ) : ℚ × ℚ :=
  (axisPos (anchorAlign a).1 cellW (clampExtent maxW cellW),
   axisPos (anchorAlign a).2 cellH (clampExtent maxH cellH))

/-- The public mutating operations of the grid, used to state reachability
of grid states through the public interface. -/
inductive GridOp
  | configureGrid (rows cols : ℤ) (padding spacing : Option (ℤ × ℤ))
  | configureRow (index : ℤ) (weight : Option ℚ) (policy : Option ℤ)
      (height : Option ℤ)
  | configureCol (index : ℤ) (weight : Option ℚ) (policy : Option ℤ)
      (width : Option ℤ)
  | packOp (item r1 c1 : ℤ) (r2 c2 : Option ℤ) (maxW maxH : ℤ)
  | clearOp
  | clearItemOp (item : ℤ)

/-- The grid state after one public operation; an operation that raises
leaves behind whatever state the source mutated before raising. -/
def Grid.applyOp (g : Grid) (op : GridOp) : Grid :=
  match op with
  | .configureGrid rows cols padding spacing =>
      g.configure_grid rows cols padding spacing
  | .configureRow index weight policy height =>
      (g.configure_row index weight policy height).2
  | .configureCol index weight policy width =>
      (g.configure_col index weight policy width).2
  | .packOp item r1 c1 r2 c2 maxW maxH =>
      match g.pack item r1 c1 r2 c2 maxW maxH with
      | .ok g2 => g2
      | .error _ => g
  | .clearOp => g.clear
  | .clearItemOp item => g.clear_item item

/-- Grid states reachable through the public interface: a successful
construction followed by any sequence of public operations. -/
def Reachable (g : Grid) : Prop :=
  ∃ (target cols rows : ℤ) (spacing padding : ℤ × ℤ) (g0 : Grid)
    (ops : List GridOp),
    Grid.construct target cols rows spacing padding = .ok g0 ∧
    g = ops.foldl Grid.applyOp g0

/-- A 1 by 1 grid used as a concrete input for the get_item evaluation. -/
def gC2 : Grid :=
  { target := 0, rows := [defaultSeries], cols := [defaultSeries],
    spacing := (0, 0), padding := (0, 0), items := [] }

/-- A grid with 2 rows and 3 columns, for the pack validation evaluation. -/
def gC3 : Grid :=
  { target := 0, rows := [defaultSeries, defaultSeries],
    cols := [defaultSeries, defaultSeries, defaultSeries],
    spacing := (0, 0), padding := (0, 0), items := [] }

/-- A grid with 3 rows and 2 columns, for the pack validation evaluation. -/
def gC3b : Grid :=
  { target := 0,
    rows := [defaultSeries, defaultSeries, defaultSeries],
    cols := [defaultSeries, defaultSeries],
    spacing := (0, 0), padding := (0, 0), items := [] }

/-- A grid with 1 row and 3 columns, for the axis growth evaluation. -/
def gC4 : Grid :=
  { target := 0, rows := [defaultSeries],
    cols := [defaultSeries, defaultSeries, defaultSeries],
    spacing := (0, 0), padding := (0, 0), items := [] }

/-- A 4 by 4 grid, for the sentinel storage evaluation. -/
def gC5 : Grid :=
  { target := 0, rows := List.replicate 4 defaultSeries,
    cols := List.replicate 4 defaultSeries,
    spacing := (0, 0), padding := (0, 0), items := [] }

/-- A grid with 1 row and 2 columns where column 0 has size 30, for the
weight unit counterexample. -/
def gC1 : Grid :=
  { target := 0, rows := [defaultSeries],
    cols := [{ weight := 1, size := 30, policy := 0 }, defaultSeries],
    spacing := (0, 0), padding := (0, 0), items := [] }

/-- A 1 by 1 grid, for the partial mutation counterexample. -/
def gC7 : Grid :=
  { target := 0, rows := [defaultSeries], cols := [defaultSeries],
    spacing := (0, 0), padding := (0, 0), items := [] }

/-- A 2 by 2 grid, for the configure_col evaluation. -/
def gC8 : Grid :=
  { target := 0, rows := [defaultSeries, defaultSeries],
    cols := [defaultSeries, defaultSeries],
    spacing := (0, 0), padding := (0, 0), items := [] }

/-- A grid with 1 row and 2 columns, for the configure_col index check. -/
def gC8b : Grid :=
  { target := 0, rows := [defaultSeries],
    cols := [defaultSeries, defaultSeries],
    spacing := (0, 0), padding := (0, 0), items := [] }

/-- A grid with 1 row, 2 uniform columns and horizontal padding 10, whose
target is 0 units wide so that the content width is negative. -/
def gC9 : Grid :=
  { target := 0, rows := [defaultSeries],
    cols := [defaultSeries, defaultSeries],
    spacing := (0, 0), padding := (10, 0), items := [] }

/-- A grid with 1 row, 2 uniform columns and horizontal spacing 10, used
as a concrete witness input. -/
def gC9w : Grid :=
  { target := 0, rows := [defaultSeries],
    cols := [defaultSeries, defaultSeries],
    spacing := (10, 0), padding := (0, 0), items := [] }

/-- A freshly constructed 1 by 1 grid, used as a reachable witness. -/
def gC10 : Grid :=
  { target := 0, rows := [defaultSeries], cols := [defaultSeries],
    spacing := (0, 0), padding := (0, 0), items := [] }

/-- The cell table of gC1 at target width 100 and height 50. -/
def csC1 : List (List Rect) :=
  [[{ x := 0, y := 0, width := 50, height := 50 },
    { x := 50, y := 0, width := 50, height := 50 }]]

/-- The cell table of gC9w at target width 100 and height 50. -/
def csC9 : List (List Rect) :=
  [[{ x := 5, y := 0, width := 40, height := 50 },
    { x := 55, y := 0, width := 40, height := 50 }]]

/-- An axis in a healthy state: nonempty, all weights at least 0.2. -/
def axisOk (l : List GridSeries) : Prop :=
  0 < l.length ∧ ∀ s ∈ l, (0.2 : ℚ) ≤ s.weight

/-- A grid whose two axes are both healthy. -/
def GoodGrid (g : Grid) : Prop := axisOk g.rows ∧ axisOk g.cols

lemma get?_of_lt {α : Type} (l : List α) (n : ℕ) (h : n < l.length) :
    ∃ a, l.get? n = some a :=
  ⟨l.get ⟨n, h⟩, List.get?_eq_get h⟩

lemma zipMap_get? {α β γ : Type} (f : α × β → γ) (l1 : List α) (l2 : List β)
    (n : ℕ) (a : α) (b : β) (h1 : l1.get? n = some a) (h2 : l2.get? n = some b) :
    ((l1.zip l2).map f).get? n = some (f (a, b)) := by
  have hz : (l1.zip l2).get? n = some (a, b) :=
    (List.get?_zip_eq_some _ _ _ _).2 ⟨h1, h2⟩
  rw [List.get?_map, hz]
  rfl

lemma extentsFrom_length (u cont : ℚ) :
    ∀ (cum : ℚ) (l : List GridSeries), (extentsFrom u cont cum l).length = l.length := by
  intro cum l
  induction l generalizing cum with
  | nil => rfl
  | cons a t ih => simp [extentsFrom, ih]

lemma offsets_length :
    ∀ (acc : ℚ) (l : List ℚ), (offsets acc l).length = l.length := by
  intro acc l
  induction l generalizing acc with
  | nil => rfl
  | cons x xs ih => simp [offsets, ih]

lemma colExtents_length (g : Grid) (tw : ℤ) :
    (colExtents g tw).length = g.cols.length :=
  extentsFrom_length _ _ _ _

lemma rowExtents_length (g : Grid) (th : ℤ) :
    (rowExtents g th).length = g.rows.length :=
  extentsFrom_length _ _ _ _

lemma extentsFrom_get? (u cont : ℚ) :
    ∀ (l : List GridSeries) (cum : ℚ) (i : ℕ) (s : GridSeries),
      l.get? i = some s →
      (extentsFrom u cont cum l).get? i
        = some (stepExtent u cont (cum + ((extentsFrom u cont cum l).take i).sum) s) := by
  intro l
  induction l with
  | nil => intro cum i s h; simp at h
  | cons a t ih =>
    intro cum i s h
    cases i with
    | zero =>
      rw [List.get?_cons_zero] at h
      injection h with h
      subst h
      simp [extentsFrom]
    | succ j =>
      rw [List.get?_cons_succ] at h
      have hcons : extentsFrom u cont cum (s :: t) = stepExtent u cont cum s ::
          extentsFrom u cont (cum + stepExtent u cont cum s) t := rfl
      rw [show extentsFrom u cont cum (a :: t)
            = stepExtent u cont cum a ::
                extentsFrom u cont (cum + stepExtent u cont cum a) t from rfl]
      rw [List.get?_cons_succ]
      rw [ih (cum + stepExtent u cont cum a) j s h]
      have harith :
          cum + stepExtent u cont cum a
            + ((extentsFrom u cont (cum + stepExtent u cont cum a) t).take j).sum
          = cum + ((stepExtent u cont cum a ::
              extentsFrom u cont (cum + stepExtent u cont cum a) t).take (j + 1)).sum := by
        rw [List.take_succ_cons, List.sum_cons]
        ring
      rw [harith]

lemma getCells_ok {g : Grid} {tw th : ℤ} {cs : List (List Rect)}
    (h : g.getCells tw th = .ok cs) :
    cs = gridCells g tw th ∧ sumWeights g.cols ≠ 0 ∧ sumWeights g.rows ≠ 0 := by
  unfold Grid.getCells at h
  by_cases hg : sumWeights g.cols = 0 ∨ sumWeights g.rows = 0
  · rw [if_pos hg] at h
    exact absurd h (by simp)
  · rw [if_neg hg] at h
    push_neg at hg
    injection h with h
    exact ⟨h.symm, hg.1, hg.2⟩

lemma cellWidths_gridCells (g : Grid) (tw th : ℤ) (r : ℕ)
    (hr : r < g.rows.length) :
    cellWidths (gridCells g tw th) r (g.spacing.1 : ℚ) = colExtents g tw := by
  have hrl : r < (rowExtents g th).length := by
    rw [rowExtents_length]; exact hr
  obtain ⟨rh, hrh⟩ := get?_of_lt _ r hrl
  obtain ⟨ro, hro⟩ := get?_of_lt (offsets 0 (rowExtents g th)) r
    (by rw [offsets_length]; exact hrl)
  unfold cellWidths gridCells
  have hrow := zipMap_get?
    (fun rp : ℚ × ℚ =>
      ((colExtents g tw).zip (offsets 0 (colExtents g tw))).map
        (fun cp : ℚ × ℚ =>
          ({ x := (g.padding.1 : ℚ) + cp.2 + (g.spacing.1 : ℚ) / 2
             y := (g.padding.2 : ℚ) + rp.2 + (g.spacing.2 : ℚ) / 2
             width := cp.1 - (g.spacing.1 : ℚ)
             height := rp.1 - (g.spacing.2 : ℚ) } : Rect)))
    _ _ r rh ro hrh hro
  rw [List.getD_eq_get?, hrow, Option.getD_some, List.map_map]
  have hptw : ∀ cp ∈ (colExtents g tw).zip (offsets 0 (colExtents g tw)),
      ((fun rect : Rect => rect.width + (g.spacing.1 : ℚ)) ∘
        (fun cp : ℚ × ℚ =>
          ({ x := (g.padding.1 : ℚ) + cp.2 + (g.spacing.1 : ℚ) / 2
             y := (g.padding.2 : ℚ) + (rh, ro).2 + (g.spacing.2 : ℚ) / 2
             width := cp.1 - (g.spacing.1 : ℚ)
             height := (rh, ro).1 - (g.spacing.2 : ℚ) } : Rect))) cp
        = Prod.fst cp := by
    intro cp _
    simp
  rw [List.map_congr_left hptw, List.map_fst_zip]
  rw [offsets_length]

lemma cellHeights_gridCells (g : Grid) (tw th : ℤ) (c : ℕ)
    (hc : c < g.cols.length) :
    cellHeights (gridCells g tw th) c (g.spacing.2 : ℚ) = rowExtents g th := by
  have hcl : c < (colExtents g tw).length := by
    rw [colExtents_length]; exact hc
  obtain ⟨cw, hcw⟩ := get?_of_lt _ c hcl
  obtain ⟨co, hco⟩ := get?_of_lt (offsets 0 (colExtents g tw)) c
    (by rw [offsets_length]; exact hcl)
  unfold cellHeights gridCells
  rw [List.map_map]
  have hptw : ∀ rp ∈ (rowExtents g th).zip (offsets 0 (rowExtents g th)),
      ((fun rowL : List Rect =>
          (rowL.getD c { x := 0, y := 0, width := 0, height := 0 }).height
            + (g.spacing.2 : ℚ)) ∘
        (fun rp : ℚ × ℚ =>
          ((colExtents g tw).zip (offsets 0 (colExtents g tw))).map
            (fun cp : ℚ × ℚ =>
              ({ x := (g.padding.1 : ℚ) + cp.2 + (g.spacing.1 : ℚ) / 2
                 y := (g.padding.2 : ℚ) + rp.2 + (g.spacing.2 : ℚ) / 2
                 width := cp.1 - (g.spacing.1 : ℚ)
                 height := rp.1 - (g.spacing.2 : ℚ) } : Rect)))) rp
        = Prod.fst rp := by
    intro rp _
    have hcell := zipMap_get?
      (fun cp : ℚ × ℚ =>
        ({ x := (g.padding.1 : ℚ) + cp.2 + (g.spacing.1 : ℚ) / 2
           y := (g.padding.2 : ℚ) + rp.2 + (g.spacing.2 : ℚ) / 2
           width := cp.1 - (g.spacing.1 : ℚ)
           height := rp.1 - (g.spacing.2 : ℚ) } : Rect))
      _ _ c cw co hcw hco
    simp only [Function.comp]
    rw [List.getD_eq_get?, hcell, Option.getD_some]
    simp
  rw [List.map_congr_left hptw, List.map_fst_zip]
  rw [offsets_length]

lemma sumWeights_uniform (w : ℚ) :
    ∀ l : List GridSeries,
      (∀ s ∈ l, s = { weight := w, size := 0, policy := 0 }) →
      sumWeights l = l.length * w := by
  intro l
  induction l with
  | nil => intro _; simp [sumWeights]
  | cons a t ih =>
    intro h
    have ha := h a (List.mem_cons_self a t)
    have ht := ih (fun s hs => h s (List.mem_cons_of_mem a hs))
    unfold sumWeights at ht ⊢
    rw [List.map_cons, List.sum_cons, ht, ha]
    simp [List.length_cons]
    ring

lemma extentsFrom_uniform_sum (u cont w : ℚ) (hw : 0 ≤ u * w) :
    ∀ l : List GridSeries,
      (∀ s ∈ l, s = { weight := w, size := 0, policy := 0 }) →
      ∀ cum, cum = cont - l.length * (u * w) →
      (extentsFrom u cont cum l).sum = l.length * (u * w) := by
  intro l
  induction l with
  | nil => intro _ cum _; simp [extentsFrom]
  | cons a t ih =>
    intro hu cum hcum
    have ha := hu a (List.mem_cons_self a t)
    have hcum_le : cum ≤ cont := by
      rw [hcum]
      have h0 : (0 : ℚ) ≤ ((a :: t).length : ℚ) * (u * w) := by
        apply mul_nonneg _ hw
        positivity
      linarith
    have hstep : stepExtent u cont cum a = u * w := by
      rw [ha]
      unfold stepExtent
      rw [if_neg]
      push_neg
      refine ⟨by simpa using hw, by norm_num [GridSeries.FIXED], hcum_le⟩
    have hnext : cum + u * w = cont - (t.length : ℚ) * (u * w) := by
      rw [hcum]
      simp [List.length_cons]
      push_cast
      ring
    have hsum := ih (fun s hs => hu s (List.mem_cons_of_mem a hs)) (cum + u * w) hnext
    show (stepExtent u cont cum a :: extentsFrom u cont (cum + stepExtent u cont cum a) t).sum
      = ((a :: t).length : ℚ) * (u * w)
    rw [List.sum_cons, hstep, hsum, List.length_cons]
    push_cast
    ring

lemma modifyIdx_length {α : Type} (l : List α) (i : ℕ) (f : α → α) :
    (modifyIdx l i f).length = l.length := by
  unfold modifyIdx
  cases h : l.get? i <;> simp [List.length_set]

lemma modifyIdx_axisOk {l : List GridSeries} (h : axisOk l) (i : ℕ)
    (f : GridSeries → GridSeries)
    (hf : ∀ s ∈ l, (0.2 : ℚ) ≤ s.weight → (0.2 : ℚ) ≤ (f s).weight) :
    axisOk (modifyIdx l i f) := by
  constructor
  · rw [modifyIdx_length]; exact h.1
  · intro s hs
    unfold modifyIdx at hs
    cases hg : l.get? i with
    | none => rw [hg] at hs; exact h.2 s hs
    | some a =>
      rw [hg] at hs
      rcases List.mem_or_eq_of_mem_set hs with hmem | heq
      · exact h.2 s hmem
      · subst heq
        exact hf a (List.get?_mem hg) (h.2 a (List.get?_mem hg))

lemma configure_series_axisOk {l : List GridSeries} (h : axisOk l)
    (index : ℤ) (w : Option ℚ) (p : Option ℤ) (z : Option ℤ) :
    axisOk (_configure_series l index w p z).2 := by
  unfold _configure_series
  by_cases hv : pyValid l.length index = true
  case neg => rw [if_neg hv]; exact h
  case pos =>
    rw [if_pos hv]
    cases w with
    | none =>
      cases p with
      | none =>
        cases z with
        | none => exact h
        | some s0 =>
          dsimp only
          by_cases hs0 : (0 : ℤ) ≤ s0
          · rw [if_pos hs0]
            exact modifyIdx_axisOk h _ _ (fun s _ hs => hs)
          · rw [if_neg hs0]
            exact h
      | some p0 =>
        dsimp only
        by_cases hp0 : p0 ≠ GridSeries.FIXED ∧ p0 ≠ GridSeries.SIZED
        · rw [if_pos hp0]
          exact h
        · rw [if_neg hp0]
          cases z with
          | none => exact modifyIdx_axisOk h _ _ (fun s _ hs => hs)
          | some s0 =>
            dsimp only
            by_cases hs0 : (0 : ℤ) ≤ s0
            · rw [if_pos hs0]
              exact modifyIdx_axisOk
                (modifyIdx_axisOk h ((index % (l.length : ℤ)).toNat)
                  (fun t => { t with policy := p0 }) (fun s _ hs => hs))
                ((index % (l.length : ℤ)).toNat)
                (fun t => { t with size := s0 }) (fun s _ hs => hs)
            · rw [if_neg hs0]
              exact modifyIdx_axisOk h _ _ (fun s _ hs => hs)
    | some w0 =>
      dsimp only
      by_cases hw0 : ¬ ((0.2 : ℚ) ≤ w0)
      · rw [if_pos hw0]
        exact h
      · rw [if_neg hw0]
        push_neg at hw0
        have h1 : axisOk (modifyIdx l ((index % (l.length : ℤ)).toNat)
            (fun t => { t with weight := w0 })) :=
          modifyIdx_axisOk h _ _ (fun s _ _ => hw0)
        cases p with
        | none =>
          cases z with
          | none => exact h1
          | some s0 =>
            dsimp only
            by_cases hs0 : (0 : ℤ) ≤ s0
            · rw [if_pos hs0]
              exact modifyIdx_axisOk h1 _ _ (fun s _ hs => hs)
            · rw [if_neg hs0]
              exact h1
        | some p0 =>
          dsimp only
          by_cases hp0 : p0 ≠ GridSeries.FIXED ∧ p0 ≠ GridSeries.SIZED
          · rw [if_pos hp0]
            exact h1
          · rw [if_neg hp0]
            cases z with
            | none => exact modifyIdx_axisOk h1 _ _ (fun s _ hs => hs)
            | some s0 =>
              dsimp only
              by_cases hs0 : (0 : ℤ) ≤ s0
              · rw [if_pos hs0]
                exact modifyIdx_axisOk
                  (modifyIdx_axisOk h1 ((index % (l.length : ℤ)).toNat)
                    (fun t => { t with policy := p0 }) (fun s _ hs => hs))
                  ((index % (l.length : ℤ)).toNat)
                  (fun t => { t with size := s0 }) (fun s _ hs => hs)
              · rw [if_neg hs0]
                exact modifyIdx_axisOk h1 _ _ (fun s _ hs => hs)

lemma resize_axisOk {l : List GridSeries} (h : axisOk l) (amount : ℤ)
    (hlen : 1 ≤ (l.length : ℤ) + amount) :
    axisOk (_resize_axis l amount) := by
  unfold _resize_axis
  by_cases h1 : (l.length : ℤ) ≤ amount
  · rw [if_pos h1]
    constructor
    · have := h.1
      simp only [List.length_append]
      omega
    · intro s hs
      rcases List.mem_append.1 hs with hmem | hrep
      · exact h.2 s hmem
      · rw [List.eq_of_mem_replicate hrep]
        norm_num [defaultSeries]
  · rw [if_neg h1]
    by_cases h2 : amount = 0
    · rw [if_pos h2]; exact h
    · rw [if_neg h2]
      by_cases h3 : 1 ≤ amount
      · rw [if_pos h3]
        refine ⟨?_, fun s hs => h.2 s (List.take_subset _ _ hs)⟩
        have := h.1
        rw [List.length_take]
        omega
      · rw [if_neg h3]
        refine ⟨?_, fun s hs => h.2 s (List.take_subset _ _ hs)⟩
        have := h.1
        rw [List.length_take]
        omega

lemma configure_grid_good {g : Grid} (hg : GoodGrid g)
    (rows cols : ℤ) (padding spacing : Option (ℤ × ℤ)) :
    GoodGrid (g.configure_grid rows cols padding spacing) := by
  unfold Grid.configure_grid
  have hg1 : GoodGrid (if rows > 0 then
      { g with rows := _resize_axis g.rows (rows - g.rows.length) } else g) := by
    by_cases hr : rows > 0
    · rw [if_pos hr]
      exact ⟨resize_axisOk hg.1 _ (by omega), hg.2⟩
    · rw [if_neg hr]; exact hg
  set g1 := if rows > 0 then
      { g with rows := _resize_axis g.rows (rows - g.rows.length) } else g with hg1def
  have hg2 : GoodGrid (if cols > 0 then
      { g1 with cols := _resize_axis g1.cols (cols - g1.cols.length) } else g1) := by
    by_cases hc : cols > 0
    · rw [if_pos hc]
      exact ⟨hg1.1, resize_axisOk hg1.2 _ (by omega)⟩
    · rw [if_neg hc]; exact hg1
  set g2 := if cols > 0 then
      { g1 with cols := _resize_axis g1.cols (cols - g1.cols.length) } else g1 with hg2def
  cases padding with
  | none =>
    cases spacing with
    | none => exact hg2
    | some sp => exact hg2
  | some pd =>
    cases spacing with
    | none => exact hg2
    | some sp => exact hg2

lemma pack_axes {g : Grid} {item r1 c1 : ℤ} {r2 c2 : Option ℤ}
    {mw mh : ℤ} {g2 : Grid}
    (h : g.pack item r1 c1 r2 c2 mw mh = .ok g2) :
    g2.rows = g.rows ∧ g2.cols = g.cols := by
  unfold Grid.pack at h
  by_cases hv : (pyValid g.rows.length r1 && pyValid g.rows.length c1
      && pyValid g.cols.length (r2.getD 0) && pyValid g.cols.length (c2.getD 0)) = true
  · rw [if_pos hv] at h
    injection h with h
    subst h
    exact ⟨rfl, rfl⟩
  · rw [if_neg hv] at h
    exact absurd h (by simp)

lemma applyOp_good {g : Grid} (hg : GoodGrid g) (op : GridOp) :
    GoodGrid (g.applyOp op) := by
  cases op with
  | configureGrid rows cols padding spacing =>
    exact configure_grid_good hg rows cols padding spacing
  | configureRow index w p hgt =>
    exact ⟨configure_series_axisOk hg.1 index w p hgt, hg.2⟩
  | configureCol index w p wd =>
    exact ⟨configure_series_axisOk hg.1 index w p wd, hg.2⟩
  | packOp item r1 c1 r2 c2 maxW maxH =>
    show GoodGrid (match g.pack item r1 c1 r2 c2 maxW maxH with
      | .ok g2 => g2
      | .error _ => g)
    cases hp : g.pack item r1 c1 r2 c2 maxW maxH with
    | ok g2 =>
      obtain ⟨h1, h2⟩ := pack_axes hp
      exact ⟨h1 ▸ hg.1, h2 ▸ hg.2⟩
    | error e => exact hg
  | clearOp => exact hg
  | clearItemOp item => exact hg

lemma foldl_good (ops : List GridOp) :
    ∀ g : Grid, GoodGrid g → GoodGrid (ops.foldl Grid.applyOp g) := by
  induction ops with
  | nil => intro g hg; exact hg
  | cons op rest ih => intro g hg; exact ih _ (applyOp_good hg op)

lemma construct_good {t c r : ℤ} {sp pd : ℤ × ℤ} {g : Grid}
    (h : Grid.construct t c r sp pd = .ok g) : GoodGrid g := by
  unfold Grid.construct at h
  by_cases h1 : r < 1
  · rw [if_pos h1] at h; exact absurd h (by simp)
  · rw [if_neg h1] at h
    by_cases h2 : c < 1
    · rw [if_pos h2] at h; exact absurd h (by simp)
    · rw [if_neg h2] at h
      injection h with h
      subst h
      constructor
      · constructor
        · simp only [List.length_replicate]; omega
        · intro s hs
          rw [List.eq_of_mem_replicate hs]
          norm_num [defaultSeries]
      · constructor
        · simp only [List.length_replicate]; omega
        · intro s hs
          rw [List.eq_of_mem_replicate hs]
          norm_num [defaultSeries]

lemma axisOk_sum_pos {l : List GridSeries} (h : axisOk l) :
    0 < sumWeights l := by
  obtain ⟨hlen, hw⟩ := h
  cases l with
  | nil => simp at hlen
  | cons a t =>
    have h1 : (0.2 : ℚ) ≤ a.weight := hw a (List.mem_cons_self a t)
    have h2 : 0 ≤ sumWeights t := by
      apply List.sum_nonneg
      intro x hx
      obtain ⟨s, hs, rfl⟩ := List.mem_map.1 hx
      have := hw s (List.mem_cons_of_mem a hs)
      linarith
    unfold sumWeights at h2 ⊢
    rw [List.map_cons, List.sum_cons]
    linarith

/-- C1 (counterexample): the claim predicts a weight unit of
unallocated / weightSum = max(0, 100 - 30) / 2 = 35 and a provisional
width of 30 for a column with positive size 30, but the code divides the
full content extent by the weight sum (100 / 2 = 50) and keeps
weightUnit * weight = 50 because 30 is not larger than it: the produced
cell width is 50, not 30. -/
theorem C1_cell_solver_counterexample :
    gC1.getCells 100 50
      = .ok [[{ x := 0, y := 0, width := 50, height := 50 },
              { x := 50, y := 0, width := 50, height := 50 }]]
    ∧ specWeightUnit 100 gC1.cols = 35
    ∧ specProvisional 100 gC1.cols 0 = 30
    ∧ contentW gC1 100 / sumWeights gC1.cols = 50
    ∧ (50 : ℚ) ≠ 35 ∧ (50 : ℚ) ≠ 30 := by
  refine ⟨?_, ?_, ?_, ?_, by norm_num, by norm_num⟩
  · norm_num [Grid.getCells, gridCells, colExtents, rowExtents, extentsFrom,
      stepExtent, offsets, contentW, contentH, sumWeights, gC1, defaultSeries,
      GridSeries.FIXED]
  · norm_num [specWeightUnit, specUnallocated, sumWeights, gC1, defaultSeries]
  · norm_num [specProvisional, specWeightUnit, specUnallocated, sumWeights,
      gC1, defaultSeries, GridSeries.FIXED]
  · norm_num [contentW, sumWeights, gC1, defaultSeries]

/-- C1 (amended): in the cell-rect computation, for every axis the weight
unit equals the content extent divided by the weight sum of the axis, and
the provisional extent of series i (the cell extent plus the spacing)
equals its size whenever the size exceeds weightUnit * weight, or the
policy is FIXED, or the cumulative provisional extent of the preceding
series exceeds the content extent; otherwise it is weightUnit * weight. -/
theorem C1_cell_solver_amended (g : Grid) (tw th : ℤ) (cs : List (List Rect))
    (hcs : g.getCells tw th = .ok cs) (r c : ℕ)
    (hr : r < g.rows.length) (hc : c < g.cols.length) :
    (cellWidths cs r (g.spacing.1 : ℚ)).get? c
      = some (if ((g.cols.get ⟨c, hc⟩).size : ℚ)
                  > contentW g tw / sumWeights g.cols * (g.cols.get ⟨c, hc⟩).weight
                ∨ (g.cols.get ⟨c, hc⟩).policy = GridSeries.FIXED
                ∨ ((cellWidths cs r (g.spacing.1 : ℚ)).take c).sum > contentW g tw
              then ((g.cols.get ⟨c, hc⟩).size : ℚ)
              else contentW g tw / sumWeights g.cols * (g.cols.get ⟨c, hc⟩).weight)
  ∧ (cellHeights cs c (g.spacing.2 : ℚ)).get? r
      = some (if ((g.rows.get ⟨r, hr⟩).size : ℚ)
                  > contentH g th / sumWeights g.rows * (g.rows.get ⟨r, hr⟩).weight
                ∨ (g.rows.get ⟨r, hr⟩).policy = GridSeries.FIXED
                ∨ ((cellHeights cs c (g.spacing.2 : ℚ)).take r).sum > contentH g th
              then ((g.rows.get ⟨r, hr⟩).size : ℚ)
              else contentH g th / sumWeights g.rows * (g.rows.get ⟨r, hr⟩).weight) := by
  obtain ⟨hcseq, hcz, hrz⟩ := getCells_ok hcs
  subst hcseq
  constructor
  · rw [cellWidths_gridCells g tw th r hr]
    have hgc : g.cols.get? c = some (g.cols.get ⟨c, hc⟩) := List.get?_eq_get hc
    have hmain := extentsFrom_get? (contentW g tw / sumWeights g.cols)
      (contentW g tw) g.cols 0 c (g.cols.get ⟨c, hc⟩) hgc
    unfold colExtents
    rw [hmain]
    simp [stepExtent]
  · rw [cellHeights_gridCells g tw th c hc]
    have hgr : g.rows.get? r = some (g.rows.get ⟨r, hr⟩) := List.get?_eq_get hr
    have hmain := extentsFrom_get? (contentH g th / sumWeights g.rows)
      (contentH g th) g.rows 0 r (g.rows.get ⟨r, hr⟩) hgr
    unfold rowExtents
    rw [hmain]
    simp [stepExtent]

/-- C1 (witness): the amended characterization evaluated on gC1 at target
width 100, for cell (0, 0). -/
theorem C1_cell_solver_amended_witness :
    gC1.getCells 100 50 = .ok csC1 ∧
    (cellWidths csC1 0 (gC1.spacing.1 : ℚ)).get? 0
      = some (if ((gC1.cols.get ⟨0, by decide⟩).size : ℚ)
                  > contentW gC1 100 / sumWeights gC1.cols
                    * (gC1.cols.get ⟨0, by decide⟩).weight
                ∨ (gC1.cols.get ⟨0, by decide⟩).policy = GridSeries.FIXED
                ∨ ((cellWidths csC1 0 (gC1.spacing.1 : ℚ)).take 0).sum > contentW gC1 100
              then ((gC1.cols.get ⟨0, by decide⟩).size : ℚ)
              else contentW gC1 100 / sumWeights gC1.cols
                    * (gC1.cols.get ⟨0, by decide⟩).weight) := by
  have hcs : gC1.getCells 100 50 = .ok csC1 := by
    norm_num [Grid.getCells, gridCells, colExtents, rowExtents, extentsFrom,
      stepExtent, offsets, contentW, contentH, sumWeights, gC1, csC1,
      defaultSeries, GridSeries.FIXED]
  exact ⟨hcs, (C1_cell_solver_amended gC1 100 50 csC1 hcs 0 0
    (by decide) (by decide)).1⟩

/-- C2: get_item on a 1 by 1 grid holding one packed item raises
TypeError instead of returning the item, because the registry loop
compares the row index to the coords2 tuple. -/
theorem C2_get_item_raises_type_error :
    (Grid.pack gC2 7 0 0 none none 0 0).map (fun gg => gg.items)
      = .ok [{ item := 7, coords1 := (0, 0), coords2 := some (0, 0),
               width := 0, height := 0 }]
    ∧ (Grid.pack gC2 7 0 0 none none 0 0).bind (fun gg => gg.get_item 0 0)
      = .error .typeError :=
  ⟨rfl, rfl⟩

/-- C3: pack validates c1 against the row count and r2 against the column
count. On a grid with 2 rows and 3 columns, pack(7, 0, 2) raises
IndexOutOfRange although column 2 exists; on a grid with 3 rows and 2
columns, pack(7, 0, 2) succeeds although column 2 does not exist, and the
stored column wraps to 0. -/
theorem C3_pack_validates_against_wrong_axis :
    Grid.pack gC3 7 0 2 none none 0 0 = .error .indexOutOfRange
    ∧ pyValid gC3.cols.length 2 = true
    ∧ (Grid.pack gC3b 7 0 2 none none 0 0).map (fun gg => gg.items)
      = .ok [{ item := 7, coords1 := (0, 0), coords2 := some (0, 0),
               width := 0, height := 0 }]
    ∧ pyValid gC3b.cols.length 2 = false :=
  ⟨rfl, rfl, rfl, rfl⟩

/-- C4: configure_grid with a requested count of 5 on a 3-column grid
trims the axis to 2 columns instead of growing it to 5, because
_resize_axis compares the delta to the current length instead of to 0. -/
theorem C4_configure_grid_growth_trims :
    (gC4.configure_grid 0 5 none none).cols.length = 2
    ∧ gC4.cols.length = 3 :=
  ⟨rfl, rfl⟩

/-- C5: pack stores the row sentinel -1 raw, but replaces a column
sentinel -1 by the normalized first row index: packing at (2, -1) in a
4 by 4 grid stores coordinates (2, 2), while packing at (-1, 1) stores
(-1, 1). -/
theorem C5_pack_column_sentinel_lost :
    (Grid.pack gC5 7 2 (-1) none none 0 0).map (fun gg => gg.items)
      = .ok [{ item := 7, coords1 := (2, 2), coords2 := some (2, 2),
               width := 0, height := 0 }]
    ∧ (Grid.pack gC5 8 (-1) 1 none none 0 0).map (fun gg => gg.items)
      = .ok [{ item := 8, coords1 := (-1, 1), coords2 := some (-1, 1),
               width := 0, height := 0 }] :=
  ⟨rfl, rfl⟩

/-- C6: the nine compass anchors resolve per axis to start, center or
end, and an item with maximum extents 10 placed in a 100 by 100 cell is
positioned at (45, 45) for anchor c, (0, 0) for anchor nw and (90, 90)
for anchor se, relative to the cell origin. -/
theorem C6_anchor_math :
    anchorResolve .c 100 100 10 10 = (45, 45)
    ∧ anchorResolve .nw 100 100 10 10 = (0, 0)
    ∧ anchorResolve .se 100 100 10 10 = (90, 90)
    ∧ ∀ (a : Anchor) (cellW itemW : ℚ),
        axisPos (anchorAlign a).1 cellW itemW = 0
        ∨ axisPos (anchorAlign a).1 cellW itemW = (cellW - itemW) / 2
        ∨ axisPos (anchorAlign a).1 cellW itemW = cellW - itemW := by
  refine ⟨?_, ?_, ?_, ?_⟩
  · norm_num [anchorResolve, anchorAlign, axisPos, clampExtent]
  · norm_num [anchorResolve, anchorAlign, axisPos, clampExtent]
  · norm_num [anchorResolve, anchorAlign, axisPos, clampExtent]
  · intro a cellW itemW
    cases a <;> simp [anchorAlign, axisPos]

/-- C7 (counterexample): configure_row with a valid index, the accepted
weight 2 and the rejected policy 5 raises ValueError but leaves the
weight already applied: the row weight after the call is 2, not the
original 1. -/
theorem C7_error_state_counterexample :
    Grid.configure_row gC7 0 (some 2) (some 5) none
      = (some .valueError,
         { gC7 with rows := [{ weight := 2, size := 0, policy := 0 }] })
    ∧ gC7.rows = [{ weight := 1, size := 0, policy := 0 }] := by
  constructor
  · norm_num [Grid.configure_row, _configure_series, pyValid, gC7, modifyIdx,
      defaultSeries, GridSeries.FIXED, GridSeries.SIZED]
  · rfl

/-- C7 (amended): an index error and a weight error leave the grid
unchanged, but a policy error raised after an accepted weight keeps the
weight: the post state equals the prior state with only the weight of the
target series replaced; registry, padding, spacing and all other series
are untouched. -/
theorem C7_error_state_amended (g : Grid) (index : ℤ) (w : ℚ) (p : ℤ) :
    (pyValid g.rows.length index = false →
      ∀ (pol : Option ℤ) (sz : Option ℤ),
        g.configure_row index (some w) pol sz = (some .indexOutOfRange, g))
  ∧ (pyValid g.rows.length index = true → ¬ ((0.2 : ℚ) ≤ w) →
      ∀ (pol : Option ℤ) (sz : Option ℤ),
        g.configure_row index (some w) pol sz = (some .valueError, g))
  ∧ (pyValid g.rows.length index = true → (0.2 : ℚ) ≤ w →
      p ≠ GridSeries.FIXED → p ≠ GridSeries.SIZED →
      ∀ sz : Option ℤ,
        g.configure_row index (some w) (some p) sz
          = (some .valueError,
             { g with rows := (modifyIdx g.rows
                 ((index % (g.rows.length : ℤ)).toNat)
                 (fun t => { t with weight := w })) })) := by
  refine ⟨?_, ?_, ?_⟩
  · intro hv pol sz
    unfold Grid.configure_row _configure_series
    rw [if_neg (by rw [hv]; simp)]
  · intro hv hw pol sz
    unfold Grid.configure_row _configure_series
    rw [if_pos hv]
    dsimp only
    rw [if_pos hw]
  · intro hv hw hp1 hp2 sz
    unfold Grid.configure_row _configure_series
    rw [if_pos hv]
    dsimp only
    rw [if_neg (fun hcon => hcon hw)]
    dsimp only
    rw [if_pos ⟨hp1, hp2⟩]

/-- C7 (witness): the amended statement evaluated on a 1 by 1 grid with
weight 2 and policy 5. -/
theorem C7_error_state_amended_witness :
    pyValid gC7.rows.length 0 = true ∧
    Grid.configure_row gC7 0 (some 2) (some 5) none
      = (some .valueError,
         { gC7 with rows := (modifyIdx gC7.rows
             ((0 % (gC7.rows.length : ℤ)).toNat)
             (fun t => { t with weight := 2 })) }) :=
  ⟨rfl, (C7_error_state_amended gC7 0 2 5).2.2 rfl (by norm_num)
    (by decide) (by decide) none⟩

/-- C8: configure_col on a 2 by 2 grid updates the row series, not the
column series: after configure_col(0, weight := 1/2) the column
configuration still reports weight 1 while the row configuration reports
weight 1/2; and on a grid with 1 row and 2 columns, configure_col(1)
raises IndexOutOfRange although column 1 exists, because the index is
validated against the row axis. -/
theorem C8_configure_col_mutates_rows :
    (Grid.configure_col gC8 0 (some (1/2)) none none).1 = none
    ∧ (Grid.configure_col gC8 0 (some (1/2)) none none).2.cols = gC8.cols
    ∧ (Grid.configure_col gC8 0 (some (1/2)) none none).2.get_col_configuration 0
        = .ok { weight := 1, size := 0, policy := 0 }
    ∧ (Grid.configure_col gC8 0 (some (1/2)) none none).2.get_row_configuration 0
        = .ok { weight := 1/2, size := 0, policy := 0 }
    ∧ (Grid.configure_col gC8b 1 (some (1/2)) none none).1 = some .indexOutOfRange
    ∧ pyValid gC8b.cols.length 1 = true := by
  refine ⟨?_, ?_, ?_, ?_, ?_, rfl⟩ <;>
    norm_num [Grid.configure_col, _configure_series, pyValid, gC8, gC8b,
      modifyIdx, defaultSeries, GridSeries.FIXED, GridSeries.SIZED,
      Grid.get_col_configuration, Grid.get_row_configuration, pyGet]

/-- C9 (counterexample): on a grid whose two columns are uniform but
whose content width is negative (target width 0, horizontal padding 10),
every column collapses to its zero size and the sum of cell width plus
spacing is 0, not the content width -20. -/
theorem C9_uniform_sum_counterexample :
    gC9.getCells 0 50
      = .ok [[{ x := 10, y := 0, width := 0, height := 50 },
              { x := 10, y := 0, width := 0, height := 50 }]]
    ∧ (cellWidths [[{ x := 10, y := 0, width := 0, height := 50 },
                    { x := 10, y := 0, width := 0, height := 50 }]] 0 0).sum = 0
    ∧ contentW gC9 0 = -20
    ∧ (0 : ℚ) ≠ -20 := by
  refine ⟨?_, ?_, ?_, by norm_num⟩
  · norm_num [Grid.getCells, gridCells, colExtents, rowExtents, extentsFrom,
      stepExtent, offsets, contentW, contentH, sumWeights, gC9, defaultSeries,
      GridSeries.FIXED]
  · norm_num [cellWidths]
  · norm_num [contentW, gC9]

/-- C9 (amended): for a grid whose columns all carry the same positive
weight, size 0 and the SIZED policy, and whose content width is
nonnegative, the sum over all columns of (cell width + horizontal
spacing) in any one row equals the content width; the analogous equality
holds for the rows of any one column. -/
theorem C9_uniform_sum_amended (g : Grid) (tw th : ℤ) (cs : List (List Rect))
    (hcs : g.getCells tw th = .ok cs) :
    (∀ w : ℚ, 0 < w →
      (∀ s ∈ g.cols, s = { weight := w, size := 0, policy := 0 }) →
      0 ≤ contentW g tw →
      ∀ r : ℕ, r < g.rows.length →
        (cellWidths cs r (g.spacing.1 : ℚ)).sum = contentW g tw)
  ∧ (∀ w : ℚ, 0 < w →
      (∀ s ∈ g.rows, s = { weight := w, size := 0, policy := 0 }) →
      0 ≤ contentH g th →
      ∀ c : ℕ, c < g.cols.length →
        (cellHeights cs c (g.spacing.2 : ℚ)).sum = contentH g th) := by
  obtain ⟨hcseq, hcz, hrz⟩ := getCells_ok hcs
  subst hcseq
  constructor
  · intro w hw huni hcont r hr
    rw [cellWidths_gridCells g tw th r hr]
    have hsumw : sumWeights g.cols = (g.cols.length : ℚ) * w :=
      sumWeights_uniform w g.cols huni
    have hnw : (g.cols.length : ℚ) * w ≠ 0 := by rw [← hsumw]; exact hcz
    have hn : (g.cols.length : ℚ) ≠ 0 := fun h0 => hnw (by rw [h0]; ring)
    have hwz : w ≠ 0 := fun h0 => hnw (by rw [h0]; ring)
    have huw : contentW g tw / sumWeights g.cols * w
        = contentW g tw / (g.cols.length : ℚ) := by
      rw [hsumw]
      field_simp
      ring
    have hge : 0 ≤ contentW g tw / sumWeights g.cols * w := by
      rw [huw]
      apply div_nonneg hcont
      positivity
    have hzero : (0 : ℚ) = contentW g tw
        - (g.cols.length : ℚ) * (contentW g tw / sumWeights g.cols * w) := by
      rw [huw]
      field_simp
    have hs := extentsFrom_uniform_sum (contentW g tw / sumWeights g.cols)
      (contentW g tw) w hge g.cols huni 0 hzero
    unfold colExtents
    rw [hs, huw]
    field_simp
  · intro w hw huni hcont c hc
    rw [cellHeights_gridCells g tw th c hc]
    have hsumw : sumWeights g.rows = (g.rows.length : ℚ) * w :=
      sumWeights_uniform w g.rows huni
    have hnw : (g.rows.length : ℚ) * w ≠ 0 := by rw [← hsumw]; exact hrz
    have hn : (g.rows.length : ℚ) ≠ 0 := fun h0 => hnw (by rw [h0]; ring)
    have hwz : w ≠ 0 := fun h0 => hnw (by rw [h0]; ring)
    have huw : contentH g th / sumWeights g.rows * w
        = contentH g th / (g.rows.length : ℚ) := by
      rw [hsumw]
      field_simp
      ring
    have hge : 0 ≤ contentH g th / sumWeights g.rows * w := by
      rw [huw]
      apply div_nonneg hcont
      positivity
    have hzero : (0 : ℚ) = contentH g th
        - (g.rows.length : ℚ) * (contentH g th / sumWeights g.rows * w) := by
      rw [huw]
      field_simp
    have hs := extentsFrom_uniform_sum (contentH g th / sumWeights g.rows)
      (contentH g th) w hge g.rows huni 0 hzero
    unfold rowExtents
    rw [hs, huw]
    field_simp

/-- C9 (witness): the amended statement evaluated on a grid with 2
uniform columns, horizontal spacing 10 and target width 100: the widths
40 and 40 plus spacing 10 each sum to the content width 100. -/
theorem C9_uniform_sum_amended_witness :
    gC9w.getCells 100 50 = .ok csC9 ∧
    (cellWidths csC9 0 (gC9w.spacing.1 : ℚ)).sum = contentW gC9w 100 := by
  have hcs : gC9w.getCells 100 50 = .ok csC9 := by
    norm_num [Grid.getCells, gridCells, colExtents, rowExtents, extentsFrom,
      stepExtent, offsets, contentW, contentH, sumWeights, gC9w, csC9,
      defaultSeries, GridSeries.FIXED]
  refine ⟨hcs, ?_⟩
  exact (C9_uniform_sum_amended gC9w 100 50 csC9 hcs).1 1 one_pos
    (by
      intro s hs
      have hsd : s = defaultSeries := by simpa [gC9w] using hs
      rw [hsd]
      rfl)
    (by norm_num [contentW, gC9w]) 0 (by norm_num [gC9w])

/-- C10: every grid reachable through the public interface has all series
weights at least 0.2 on both axes, both weight sums strictly positive,
and the cell solver never fails with a division by zero. -/
theorem C10_weight_invariant (g : Grid) (h : Reachable g) :
    (∀ s ∈ g.rows, (0.2 : ℚ) ≤ s.weight)
    ∧ (∀ s ∈ g.cols, (0.2 : ℚ) ≤ s.weight)
    ∧ 0 < sumWeights g.rows ∧ 0 < sumWeights g.cols
    ∧ ∀ tw th : ℤ, ∃ cs, g.getCells tw th = .ok cs := by
  obtain ⟨t, c, r, sp, pd, g0, ops, hcons, rfl⟩ := h
  have hg : GoodGrid (ops.foldl Grid.applyOp g0) :=
    foldl_good ops g0 (construct_good hcons)
  refine ⟨hg.1.2, hg.2.2, axisOk_sum_pos hg.1, axisOk_sum_pos hg.2, ?_⟩
  intro tw th
  have hne : ¬ (sumWeights (ops.foldl Grid.applyOp g0).cols = 0
      ∨ sumWeights (ops.foldl Grid.applyOp g0).rows = 0) := by
    push_neg
    exact ⟨ne_of_gt (axisOk_sum_pos hg.2), ne_of_gt (axisOk_sum_pos hg.1)⟩
  refine ⟨gridCells (ops.foldl Grid.applyOp g0) tw th, ?_⟩
  unfold Grid.getCells
  rw [if_neg hne]

/-- C10 (witness): the invariant evaluated on a freshly constructed
1 by 1 grid. -/
theorem C10_weight_invariant_witness :
    Reachable gC10 ∧
    ((∀ s ∈ gC10.rows, (0.2 : ℚ) ≤ s.weight)
     ∧ (∀ s ∈ gC10.cols, (0.2 : ℚ) ≤ s.weight)
     ∧ 0 < sumWeights gC10.rows ∧ 0 < sumWeights gC10.cols
     ∧ ∀ tw th : ℤ, ∃ cs, gC10.getCells tw th = .ok cs) :=
  have hreach : Reachable gC10 := ⟨0, 1, 1, (0, 0), (0, 0), gC10, [], rfl, rfl⟩
  ⟨hreach, C10_weight_invariant gC10 hreach⟩

end GridSpec
